import Mathlib

/-
Verification development for the swiftstreamer video player
(src/src/components/VideoPlayer.tsx).

The component is a single-threaded, event-driven React function component.
We embed its state and its event handlers shallowly:

* `PlayerState` holds the component's `useState` fields (lines 14-26) plus
  the pending auto-hide timeout held in `controlsTimeoutRef` (line 27).
  A scheduled timeout callback is a closure over the render in which it was
  created, so the pending timer is modelled as `Option Bool` carrying the
  `isPlaying` value captured when the timeout was armed (lines 204-209):
  when it later fires it tests that captured value, not the current one.
* `MediaSink` models the black-box HTML video element the handlers write to
  (volume, currentTime, duration, playbackRate, paused).
* `World` combines the two with the document fullscreen flag, an engine
  session counter (one per hls.js instance created by the `[url]` effect),
  and a log of fullscreen commands issued to the platform.
* Each event handler of the component becomes a function `World → World`,
  translated line by line from the source; `step` dispatches the discrete
  events that can occur (user input, hls.js callbacks, sink callbacks,
  platform signals, timer expiry) and `run` folds a list of them.
-/

namespace SwiftStreamer

/-- A fullscreen command issued to the platform by `toggleFullscreen`
(lines 111-119): `requestFullscreen()` or `exitFullscreen()`. -/
inductive FsCommand
  | request
  | exit
  deriving DecidableEq

/-- One entry of the `qualities` state (line 22): built in the
MANIFEST_PARSED handler as `{ height: level.height, level: index }`
(lines 50-53). -/
structure Quality where
  height : Nat
  level : Nat
  deriving DecidableEq

/-- The component's `useState` fields (lines 14-26) plus the pending
auto-hide timeout of `controlsTimeoutRef` (line 27).  `pendingTimer = some b`
means a timeout is scheduled whose callback captured `isPlaying = b` when it
was armed; `none` means no timeout is pending. -/
structure PlayerState where
  isPlaying : Bool
  volume : ℚ
  currentTime : ℚ
  duration : ℚ
  loading : Bool
  error : Option String
  playbackSpeed : ℚ
  showControls : Bool
  qualities : List Quality
  currentQuality : ℤ
  isBuffering : Bool
  isFullscreen : Bool
  showSettings : Bool
  pendingTimer : Option Bool
  deriving DecidableEq

/-- The black-box HTML video element (media sink) as far as the handlers
read and write it. -/
structure MediaSink where
  paused : Bool
  volume : ℚ
  currentTime : ℚ
  duration : ℚ
  playbackRate : ℚ
  deriving DecidableEq

/-- Component state, sink state, the document fullscreen flag, the engine
session counter (bumped each time the `[url]` effect re-runs and builds a
fresh hls.js instance), and the log of fullscreen commands sent to the
platform. -/
structure World where
  ui : PlayerState
  sink : MediaSink
  docFullscreen : Bool
  session : Nat
  fsCommands : List FsCommand
  deriving DecidableEq

/-- Initial `useState` values (lines 14-27): playing false, volume 1,
time 0, duration 0, loading true, no error, speed 1, controls shown,
no qualities, quality index 0, not buffering, not fullscreen, settings
closed, no pending timeout. -/
def initPlayer : PlayerState :=
  { isPlaying := false
    volume := 1
    currentTime := 0
    duration := 0
    loading := true
    error := none
    playbackSpeed := 1
    showControls := true
    qualities := []
    currentQuality := 0
    isBuffering := false
    isFullscreen := false
    showSettings := false
    pendingTimer := none }

/-- A fresh video element: paused, volume 1, time 0, no duration yet,
rate 1. -/
def initSink : MediaSink :=
  { paused := true, volume := 1, currentTime := 0, duration := 0, playbackRate := 1 }

/-- The world at mount time, before any event. -/
def initWorld : World :=
  { ui := initPlayer
    sink := initSink
    docFullscreen := false
    session := 0
    fsCommands := [] }

/-- Lines 98-109: `handlePlayPause` reads `video.paused`; if paused it
calls `video.play()` and sets `isPlaying` true, otherwise `video.pause()`
and `isPlaying` false. -/
def handlePlayPause (w : World) : World :=
  if w.sink.paused then
    { w with sink := { w.sink with paused := false }, ui := { w.ui with isPlaying := true } }
  else
    { w with sink := { w.sink with paused := true }, ui := { w.ui with isPlaying := false } }

/-- Lines 111-119: `toggleFullscreen` issues `requestFullscreen` when the
document reports no fullscreen element, otherwise `exitFullscreen`.  It
writes no component state; success is observed later via the platform's
fullscreenchange signal. -/
def toggleFullscreen (w : World) : World :=
  if !w.docFullscreen then
    { w with fsCommands := w.fsCommands ++ [FsCommand.request] }
  else
    { w with fsCommands := w.fsCommands ++ [FsCommand.exit] }

/-- Lines 121-127: `handleVolumeChange` stores the slider value in the
`volume` state and writes the same value to `video.volume`. -/
def handleVolumeChange (w : World) (value : ℚ) : World :=
  { w with ui := { w.ui with volume := value }
           sink := { w.sink with volume := value } }

/-- Lines 129-141: `handleTimeSeek` computes
`newTime = percentage * duration` from the pointer position (with
`duration` the React state of line 17) and assigns it, unclamped, both to
`video.currentTime` and to the `currentTime` state. -/
def handleTimeSeek (w : World) (percentage : ℚ) : World :=
  let newTime := percentage * w.ui.duration
  { w with sink := { w.sink with currentTime := newTime }
           ui := { w.ui with currentTime := newTime } }

/-- Lines 151-156: `handleSpeedChange` stores the speed and writes it to
`video.playbackRate`. -/
def handleSpeedChange (w : World) (speed : ℚ) : World :=
  { w with ui := { w.ui with playbackSpeed := speed }
           sink := { w.sink with playbackRate := speed } }

/-- Lines 158-164: `handleQualityChange` assigns `hls.currentLevel = level`
(a command to the black-box engine, not modelled state), stores the level
in `currentQuality`, and closes the settings menu. -/
def handleQualityChange (w : World) (level : ℤ) : World :=
  { w with ui := { w.ui with currentQuality := level, showSettings := false } }

/-- Lines 166-170: `handleSkip` adds `seconds` to `video.currentTime`
with no clamping; it does not call `setCurrentTime`. -/
def handleSkip (w : World) (seconds : ℚ) : World :=
  { w with sink := { w.sink with currentTime := w.sink.currentTime + seconds } }

/-- Lines 333-344: the mute toggle button runs
`setVolume(volume === 0 ? 1 : 0)`.  It touches only the `volume` state,
never `video.volume`, and remembers nothing. -/
def muteToggleClick (w : World) : World :=
  { w with ui := { w.ui with volume := if w.ui.volume = 0 then 1 else 0 } }

/-- Lines 361-370: the settings button runs
`setShowSettings(!showSettings)`. -/
def settingsToggleClick (w : World) : World :=
  { w with ui := { w.ui with showSettings := !w.ui.showSettings } }

/-- Lines 199-210: `handleMouseMove` shows the controls, clears any pending
timeout, and schedules a new 3000 ms timeout whose callback closes over the
current render's `isPlaying` (captured in `pendingTimer`). -/
def handleMouseMove (w : World) : World :=
  { w with ui := { w.ui with showControls := true, pendingTimer := some w.ui.isPlaying } }

/-- Lines 234-245: the container's onTouchStart does exactly what
`handleMouseMove` does: show controls, clear the pending timeout, schedule
a fresh one capturing the current `isPlaying`. -/
def containerTouchStart (w : World) : World :=
  { w with ui := { w.ui with showControls := true, pendingTimer := some w.ui.isPlaying } }

/-- Expiry of the scheduled timeout (the callback of lines 204-209 /
239-244): it tests the `isPlaying` value its closure captured when it was
armed; if that captured value is true it hides the controls and closes the
settings menu.  Either way the timeout is no longer pending. -/
def controlsTimeoutFire (w : World) : World :=
  match w.ui.pendingTimer with
  | none => w
  | some captured =>
    if captured then
      { w with ui := { w.ui with showControls := false, showSettings := false,
                                 pendingTimer := none } }
    else
      { w with ui := { w.ui with pendingTimer := none } }

/-- Lines 228-233: onMouseLeave hides the controls and closes the settings
menu when `isPlaying` is true at the moment of the event; it does not
cancel a pending timeout. -/
def containerMouseLeave (w : World) : World :=
  if w.ui.isPlaying then
    { w with ui := { w.ui with showControls := false, showSettings := false } }
  else
    w

/-- Lines 89-96: the document-level fullscreenchange handler mirrors
`!!document.fullscreenElement` into `isFullscreen`.  The event carries the
document's new fullscreen flag. -/
def handleFullscreenChange (w : World) (docFs : Bool) : World :=
  { w with docFullscreen := docFs, ui := { w.ui with isFullscreen := docFs } }

/-- Lines 58-63: the Hls ERROR handler with `data.fatal = true` sets the
error message and clears loading. -/
def onHlsFatalError (w : World) : World :=
  { w with ui := { w.ui with error := some ("Failed to load video stream"), loading := false } }

/-- Lines 58-63 with `data.fatal = false`: the handler body is skipped. -/
def onHlsNonFatalError (w : World) : World :=
  w

/-- Lines 49-56: MANIFEST_PARSED maps the engine's levels to
`{ height, level: index }` pairs, stores them in `qualities`, and clears
loading. -/
def onManifestParsed (w : World) (heights : List Nat) : World :=
  { w with ui := { w.ui with qualities := heights.enum.map (fun p => ⟨p.2, p.1⟩)
                             loading := false } }

/-- Line 35: the sink's waiting signal sets `isBuffering` true. -/
def onWaiting (w : World) : World :=
  { w with ui := { w.ui with isBuffering := true } }

/-- Line 36: the sink's playing signal sets `isBuffering` false. -/
def onPlaying (w : World) : World :=
  { w with ui := { w.ui with isBuffering := false } }

/-- Lines 76-87: the sink's timeupdate handler copies `video.currentTime`
and `video.duration` into the component state. -/
def handleTimeUpdate (w : World) : World :=
  { w with ui := { w.ui with currentTime := w.sink.currentTime
                             duration := w.sink.duration } }

/-- Lines 31-74: the `[url]` effect.  When the locator changes, the cleanup
destroys the previous hls.js instance and the new run creates a fresh one,
loads the source and attaches the media (modelled by bumping the session
counter).  It writes none of the React state fields: `qualities`,
`currentQuality`, `error`, `loading` and the rest are left exactly as the
previous session left them. -/
def urlChangeEffect (w : World) : World :=
  { w with session := w.session + 1 }

/-- The discrete events the component reacts to: hls.js callbacks, sink
callbacks, the platform fullscreen signal, user input on the rendered
controls, and expiry of the auto-hide timeout. -/
inductive Event
  | manifestParsed (heights : List Nat)
  | hlsFatalError
  | hlsNonFatalError
  | waiting
  | playing
  | timeUpdate
  | fullscreenChange (docFs : Bool)
  | playPauseClick
  | fullscreenClick
  | volumeInput (value : ℚ)
  | seekInput (percentage : ℚ)
  | speedSelect (speed : ℚ)
  | qualitySelect (level : ℤ)
  | skipClick (seconds : ℚ)
  | mouseMove
  | touchStart
  | mouseLeave
  | settingsClick
  | muteClick
  | timerFire

/-- Dispatch one event to its handler. -/
def step (w : World) : Event → World
  | .manifestParsed hs => onManifestParsed w hs
  | .hlsFatalError => onHlsFatalError w
  | .hlsNonFatalError => onHlsNonFatalError w
  | .waiting => onWaiting w
  | .playing => onPlaying w
  | .timeUpdate => handleTimeUpdate w
  | .fullscreenChange fs => handleFullscreenChange w fs
  | .playPauseClick => handlePlayPause w
  | .fullscreenClick => toggleFullscreen w
  | .volumeInput v => handleVolumeChange w v
  | .seekInput p => handleTimeSeek w p
  | .speedSelect r => handleSpeedChange w r
  | .qualitySelect l => handleQualityChange w l
  | .skipClick n => handleSkip w n
  | .mouseMove => handleMouseMove w
  | .touchStart => containerTouchStart w
  | .mouseLeave => containerMouseLeave w
  | .settingsClick => settingsToggleClick w
  | .muteClick => muteToggleClick w
  | .timerFire => controlsTimeoutFire w

/-- Run a sequence of events from a world. -/
def run (w : World) (es : List Event) : World :=
  es.foldl step w

/-- JavaScript truncation toward zero, the rounding used by the `%`
operator on numbers. -/
def jsTrunc (q : ℚ) : ℤ :=
  if 0 ≤ q then ⌊q⌋ else ⌈q⌉

/-- JavaScript remainder: `a % b = a - b * trunc(a / b)`. -/
def jsMod (a b : ℚ) : ℚ :=
  a - b * (jsTrunc (a / b) : ℚ)

/-- JavaScript `padStart(2, c0)` where c0 is the zero character: prepend
zeros until the string is at least two characters long. -/
def padStart2 (s : String) : String :=
  if s.length ≥ 2 then s else if s.length = 1 then "0" ++ s else "00"

/-- Lines 172-177: `formatTime` computes `h = Math.floor(seconds/3600)`,
`m = Math.floor((seconds % 3600)/60)`, `s = Math.floor(seconds % 60)` and
renders `h + ':'` (unpadded, only when `h > 0`) followed by `m` and `s`
each zero-padded to two digits. -/
def formatTime (seconds : ℚ) : String :=
  (if ⌊seconds / 3600⌋ > 0 then toString ⌊seconds / 3600⌋ ++ ":" else "")
    ++ padStart2 (toString ⌊jsMod seconds 3600 / 60⌋)
    ++ ":" ++ padStart2 (toString ⌊jsMod seconds 60⌋)

/-- Division with its zero-denominator error branch made explicit:
`none` is the branch the code reaches when the denominator is 0. -/
def divOpt (num den : ℚ) : Option ℚ :=
  if den = 0 then none else some (num / den)

/-- Lines 179-184: `getProgressBarStyles` computes
`(currentTime / duration) * 100` with no guard on `duration`; the divisor
is exactly the `duration` state. -/
def getProgressBarStyles (s : PlayerState) : Option ℚ :=
  (divOpt s.currentTime s.duration).map (fun f => f * 100)

/-- Lines 287-298: each buffered range is rendered with width
`((range.end - range.start) / duration) * 100`, again with no guard on
`duration`. -/
def bufferedRangeWidth (s : PlayerState) (rangeStart rangeEnd : ℚ) : Option ℚ :=
  (divOpt (rangeEnd - rangeStart) s.duration).map (fun f => f * 100)

/-- What the component returns from render: lines 212-218 return only an
error message when `error` is set (no controls, no media surface);
otherwise lines 220-465 return the media surface with the control strip,
the settings menu, and the loading overlay. -/
inductive Surface
  | errorOnly (msg : String)
  | mediaSurface (showControls : Bool) (showSettings : Bool) (loadingOverlay : Bool)
  deriving DecidableEq

/-- The render function as a pure function of the component state. -/
def render (s : PlayerState) : Surface :=
  match s.error with
  | some msg => Surface.errorOnly msg
  | none => Surface.mediaSurface s.showControls s.showSettings (s.loading || s.isBuffering)

/-- A world whose known duration is 100 seconds. -/
def sampleDuration100 : World :=
  { initWorld with ui := { initPlayer with duration := 100 }
                   sink := { initSink with duration := 100 } }

/-- A world in which the user has set the volume slider to 0.7. -/
def sampleVolume07 : World :=
  run initWorld [Event.volumeInput (7 / 10)]

/-- A playing session that has received a manifest with 720p and 1080p
levels and in which the user selected level 1. -/
def playingSessionWorld : World :=
  run initWorld [Event.manifestParsed [720, 1080], Event.qualitySelect 1, Event.playPauseClick]

/-- A world in which a fatal streaming error has occurred. -/
def erroredWorld : World :=
  run initWorld [Event.hlsFatalError]

/-- Sink, UI and timer events delivered after the fatal error. -/
def postErrorEvents : List Event :=
  [Event.waiting, Event.playing, Event.timeUpdate, Event.playPauseClick,
   Event.seekInput (1 / 2), Event.mouseMove, Event.timerFire]

/-- Press play, move the pointer (arming the 3 s timeout, whose callback
captures `isPlaying = true`), press pause, then let the timeout expire. -/
def staleTimerTrace : List Event :=
  [Event.playPauseClick, Event.mouseMove, Event.playPauseClick, Event.timerFire]

/-- The spec's progress-fraction example state: currentTime 30,
duration 120. -/
def progressSample : PlayerState :=
  { initPlayer with currentTime := 30, duration := 120 }

/-- The time format described by the spec, for whole non-negative second
counts: an unpadded hours field followed by a colon exactly when the input
is at least 3600 seconds, then minutes and seconds zero-padded to two
digits. -/
def formatTimeSpec (n : Nat) : String :=
  (if 3600 ≤ n then toString (n / 3600) ++ ":" else "")
    ++ padStart2 (toString (n % 3600 / 60))
    ++ ":" ++ padStart2 (toString (n % 60))

/-- True exactly for the document-level fullscreenchange signal. -/
def touchesFullscreenSignal : Event → Bool
  | .fullscreenChange _ => true
  | _ => false

/-- True exactly for the two events whose handlers write `qualities` or
`currentQuality`. -/
def touchesQualityState : Event → Bool
  | .manifestParsed _ => true
  | .qualitySelect _ => true
  | _ => false

/-- Play, open the settings menu, move the pointer: the menu is open and a
3 s timeout is pending whose callback captured `isPlaying = true`. -/
def menuOpenWorld : World :=
  run initWorld [Event.playPauseClick, Event.settingsClick, Event.mouseMove]

/-- A trace with no fullscreenchange signal in it (it does contain a click
on the fullscreen toggle button). -/
def fsFreeTrace : List Event :=
  [Event.muteClick, Event.playPauseClick, Event.mouseMove, Event.fullscreenClick]

/-- Events delivered after a locator switch, none of which carries a new
manifest or a quality selection. -/
def postSwitchEvents : List Event :=
  [Event.waiting, Event.timeUpdate, Event.mouseMove, Event.playPauseClick]

/-- Floor of a quotient of natural-number casts is natural division. -/
lemma ifloor_natCast_div (n b : Nat) : ⌊(n : ℚ) / (b : ℚ)⌋ = ((n / b : Nat) : ℤ) := by
  rw [← Int.natCast_floor_eq_floor (by positivity : (0:ℚ) ≤ (n:ℚ) / (b:ℚ))]
  rw [Nat.floor_div_eq_div]

/-- On casts of natural numbers the JavaScript remainder is the natural
remainder. -/
lemma jsMod_natCast (n b : Nat) : jsMod (n : ℚ) (b : ℚ) = ((n % b : Nat) : ℚ) := by
  unfold jsMod jsTrunc
  rw [if_pos (by positivity : (0:ℚ) ≤ (n:ℚ) / (b:ℚ))]
  rw [ifloor_natCast_div, Int.cast_natCast]
  have h2 : (b : ℚ) * ((n / b : Nat) : ℚ) + ((n % b : Nat) : ℚ) = (n : ℚ) := by
    exact_mod_cast congrArg (Nat.cast : Nat → ℚ) (Nat.div_add_mod n b)
  linarith

/-- Rendering a natural number through the integer cast prints the same
digits. -/
lemma toString_intCast (k : Nat) : toString ((k : ℤ)) = toString k := rfl

/-- No handler ever clears `error`: a step either leaves the `error` field
unchanged or sets it to the fatal message. -/
lemma step_error_cases (w : World) (e : Event) :
    (step w e).ui.error = w.ui.error ∨
    (step w e).ui.error = some ("Failed to load video stream") := by
  cases e <;>
    simp only [step, onManifestParsed, onHlsFatalError, onHlsNonFatalError, onWaiting,
      onPlaying, handleTimeUpdate, handleFullscreenChange, handlePlayPause, toggleFullscreen,
      handleVolumeChange, handleTimeSeek, handleSpeedChange, handleQualityChange, handleSkip,
      handleMouseMove, containerTouchStart, containerMouseLeave, settingsToggleClick,
      muteToggleClick, controlsTimeoutFire] <;>
    (repeat' split) <;> simp

/-- Only the fullscreenchange signal writes `isFullscreen`. -/
lemma step_preserves_isFullscreen (w : World) (e : Event)
    (h : touchesFullscreenSignal e = false) :
    (step w e).ui.isFullscreen = w.ui.isFullscreen := by
  cases e
  case fullscreenChange fs => simp [touchesFullscreenSignal] at h
  all_goals
    simp only [step, onManifestParsed, onHlsFatalError, onHlsNonFatalError, onWaiting,
      onPlaying, handleTimeUpdate, handlePlayPause, toggleFullscreen,
      handleVolumeChange, handleTimeSeek, handleSpeedChange, handleQualityChange, handleSkip,
      handleMouseMove, containerTouchStart, containerMouseLeave, settingsToggleClick,
      muteToggleClick, controlsTimeoutFire]
  all_goals (repeat' split)
  all_goals simp

/-- Only MANIFEST_PARSED and a quality selection write `qualities` or
`currentQuality`. -/
lemma step_preserves_quality_state (w : World) (e : Event)
    (h : touchesQualityState e = false) :
    (step w e).ui.qualities = w.ui.qualities ∧
    (step w e).ui.currentQuality = w.ui.currentQuality := by
  cases e
  case manifestParsed hs => simp [touchesQualityState] at h
  case qualitySelect l => simp [touchesQualityState] at h
  all_goals
    simp only [step, onHlsFatalError, onHlsNonFatalError, onWaiting,
      onPlaying, handleTimeUpdate, handleFullscreenChange, handlePlayPause, toggleFullscreen,
      handleVolumeChange, handleTimeSeek, handleSpeedChange, handleSkip,
      handleMouseMove, containerTouchStart, containerMouseLeave, settingsToggleClick,
      muteToggleClick, controlsTimeoutFire]
  all_goals (repeat' split)
  all_goals simp

/-- Unfolding one event of a run. -/
lemma run_cons (w : World) (e : Event) (es : List Event) :
    run w (e :: es) = run (step w e) es := rfl

/-- Once `error` is set, it stays set across any event sequence. -/
lemma run_error_isSome (w : World) (es : List Event) (h : w.ui.error.isSome = true) :
    (run w es).ui.error.isSome = true := by
  induction es generalizing w with
  | nil => exact h
  | cons e es ih =>
    rw [run_cons]
    apply ih
    rcases step_error_cases w e with h1 | h1
    · rw [h1]; exact h
    · rw [h1]; rfl

/-- `isFullscreen` is constant across any event sequence that contains no
fullscreenchange signal. -/
lemma run_preserves_isFullscreen (w : World) (es : List Event)
    (h : ∀ e ∈ es, touchesFullscreenSignal e = false) :
    (run w es).ui.isFullscreen = w.ui.isFullscreen := by
  induction es generalizing w with
  | nil => rfl
  | cons e es ih =>
    rw [run_cons]
    rw [ih (step w e) (fun x hx => h x (List.mem_cons_of_mem e hx))]
    exact step_preserves_isFullscreen w e (h e (List.mem_cons_self e es))

/-- `qualities` and `currentQuality` are constant across any event sequence
that contains no manifest event and no quality selection. -/
lemma run_preserves_quality_state (w : World) (es : List Event)
    (h : ∀ e ∈ es, touchesQualityState e = false) :
    (run w es).ui.qualities = w.ui.qualities ∧
    (run w es).ui.currentQuality = w.ui.currentQuality := by
  induction es generalizing w with
  | nil => exact ⟨rfl, rfl⟩
  | cons e es ih =>
    rw [run_cons]
    have hs := step_preserves_quality_state w e (h e (List.mem_cons_self e es))
    have hr := ih (step w e) (fun x hx => h x (List.mem_cons_of_mem e hx))
    exact ⟨hr.1.trans hs.1, hr.2.trans hs.2⟩

/-- When `error` is set, render returns only the error message. -/
lemma render_errorOnly (s : PlayerState) (d : String) (h : s.error.isSome = true) :
    render s = Surface.errorOnly (s.error.getD d) := by
  cases herr : s.error with
  | none => rw [herr] at h; simp at h
  | some m => simp [render, herr]

/-- Claim C1, counterexample: the claim says a seek target is clamped to
`[0, duration]`, so seeking to -5 with duration 100 should commit 0.  In
the code `handleTimeSeek` commits `percentage * duration` unclamped:
with duration 100 and pointer fraction -1/20 the committed current time is
-5, not `min (max (-5) 0) 100 = 0`. -/
theorem seek_unclamped_counterexample :
    (step sampleDuration100 (Event.seekInput (-1 / 20))).ui.currentTime = -5 ∧
    ¬ (step sampleDuration100 (Event.seekInput (-1 / 20))).ui.currentTime
        = min (max (-5 : ℚ) 0) 100 := by
  constructor <;>
    norm_num [step, handleTimeSeek, sampleDuration100, initWorld, initPlayer, initSink,
      min_def, max_def]

/-- Claim C1, amended: neither seeking nor skipping clamps.  The committed
current time after a seek equals the raw target `percentage * duration`
(both in the component state and in the sink), and a skip adds N seconds
to the sink's current time unclamped without touching the committed
`currentTime` state at all. -/
theorem seek_and_skip_commit_unclamped (w : World) (p n : ℚ) :
    (step w (Event.seekInput p)).ui.currentTime = p * w.ui.duration ∧
    (step w (Event.seekInput p)).sink.currentTime = p * w.ui.duration ∧
    (step w (Event.skipClick n)).sink.currentTime = w.sink.currentTime + n ∧
    (step w (Event.skipClick n)).ui.currentTime = w.ui.currentTime :=
  ⟨rfl, rfl, rfl, rfl⟩

/-- Claim C2, counterexample: the claim says unmuting restores the exact
pre-mute volume 0.7.  In the code the mute button runs
`setVolume(volume === 0 ? 1 : 0)`: after setting the volume to 0.7, muting
yields 0 and unmuting yields the constant 1, not 0.7. -/
theorem mute_roundtrip_counterexample :
    (run initWorld [Event.volumeInput (7 / 10), Event.muteClick]).ui.volume = 0 ∧
    (run initWorld [Event.volumeInput (7 / 10), Event.muteClick, Event.muteClick]).ui.volume = 1 ∧
    ¬ (run initWorld [Event.volumeInput (7 / 10), Event.muteClick, Event.muteClick]).ui.volume
        = 7 / 10 := by
  refine ⟨?_, ?_, ?_⟩ <;>
    norm_num [run, step, List.foldl, handleVolumeChange, muteToggleClick, initWorld, initPlayer]

/-- Claim C2, amended: for every nonzero volume v, pressing mute sets the
displayed volume to 0, and pressing the button again restores the constant
1 — nothing remembers the pre-mute volume. -/
theorem mute_unmute_restores_one (w : World) (h : w.ui.volume ≠ 0) :
    (step w Event.muteClick).ui.volume = 0 ∧
    (step (step w Event.muteClick) Event.muteClick).ui.volume = 1 := by
  constructor <;> simp [step, muteToggleClick, h]

/-- Claim C2, witness for the amended claim at volume 0.7. -/
theorem mute_unmute_restores_one_witness :
    (step sampleVolume07 Event.muteClick).ui.volume = 0 ∧
    (step (step sampleVolume07 Event.muteClick) Event.muteClick).ui.volume = 1 :=
  mute_unmute_restores_one sampleVolume07
    (by norm_num [sampleVolume07, run, step, List.foldl, handleVolumeChange, initWorld, initPlayer])

/-- Claim C3: play, move the pointer (arming the 3 s timeout, whose
callback closes over `isPlaying = true` from that render), pause, and let
the timeout expire.  The stale captured flag passes the `if (isPlaying)`
test, so the controls are hidden over a paused frame — a reachable state
with `isPlaying = false` and `showControls = false`, violating the
never-hide-while-paused invariant the guard was written for. -/
theorem controls_hidden_while_paused :
    (run initWorld staleTimerTrace).ui.isPlaying = false ∧
    (run initWorld staleTimerTrace).ui.showControls = false := by
  decide

/-- Claim C4, counterexample: the claim says that while the settings menu
is open the inactivity timer cannot hide the controls or close the menu.
With the menu open, a pending timer armed while playing, the timer expiry
hides the controls and closes the menu. -/
theorem autohide_with_menu_open_counterexample :
    menuOpenWorld.ui.showSettings = true ∧
    menuOpenWorld.ui.isPlaying = true ∧
    (run menuOpenWorld [Event.timerFire]).ui.showControls = false ∧
    (run menuOpenWorld [Event.timerFire]).ui.showSettings = false := by
  decide

/-- Claim C4, amended: the settings menu does not suspend auto-hide.
Whenever the pending timeout captured `isPlaying = true`, its expiry hides
the controls and also closes the settings menu, regardless of the menu
being open. -/
theorem timer_fire_ignores_menu_state (w : World) (h : w.ui.pendingTimer = some true) :
    (step w Event.timerFire).ui.showControls = false ∧
    (step w Event.timerFire).ui.showSettings = false := by
  constructor <;> simp [step, controlsTimeoutFire, h]

/-- Claim C4, witness for the amended claim: menu open, timer pending. -/
theorem timer_fire_ignores_menu_state_witness :
    (step menuOpenWorld Event.timerFire).ui.showControls = false ∧
    (step menuOpenWorld Event.timerFire).ui.showSettings = false :=
  timer_fire_ignores_menu_state menuOpenWorld (by decide)

/-- Claim C5: the fatal-error state is terminal.  Once `error` is set, no
subsequent event — buffering signals, time updates, or any user command —
clears it, and the component renders only the error message (no controls,
no media surface). -/
theorem fatal_error_is_terminal (w : World) (es : List Event) (msg : String)
    (h : w.ui.error = some msg) :
    (run w es).ui.error.isSome = true ∧
    render (run w es).ui = Surface.errorOnly ((run w es).ui.error.getD msg) := by
  have h1 : (run w es).ui.error.isSome = true := run_error_isSome w es (by rw [h]; rfl)
  exact ⟨h1, render_errorOnly _ msg h1⟩

/-- Claim C5, witness: after a fatal error, a run of buffering, time
update, play, seek, pointer and timer events leaves the error set and the
surface showing only the error message. -/
theorem fatal_error_is_terminal_witness :
    (run erroredWorld postErrorEvents).ui.error.isSome = true ∧
    render (run erroredWorld postErrorEvents).ui
      = Surface.errorOnly
          ((run erroredWorld postErrorEvents).ui.error.getD ("Failed to load video stream")) :=
  fatal_error_is_terminal erroredWorld postErrorEvents ("Failed to load video stream") (by decide)

/-- Claim C6: `isFullscreen` is written only by the platform's
fullscreenchange signal.  Across any event sequence without that signal
the flag is unchanged; the fullscreen toggle button only appends a
request/exit command for the platform (chosen from the document state)
and does not set the flag optimistically; the signal itself is what
mirrors the document state into the flag. -/
theorem isFullscreen_only_from_fullscreen_signal (w : World) (es : List Event)
    (h : ∀ e ∈ es, touchesFullscreenSignal e = false) :
    (run w es).ui.isFullscreen = w.ui.isFullscreen ∧
    (step w Event.fullscreenClick).ui.isFullscreen = w.ui.isFullscreen ∧
    (step w Event.fullscreenClick).fsCommands
      = w.fsCommands ++ [if w.docFullscreen then FsCommand.exit else FsCommand.request] ∧
    (step w (Event.fullscreenChange true)).ui.isFullscreen = true ∧
    (step w (Event.fullscreenChange false)).ui.isFullscreen = false := by
  refine ⟨run_preserves_isFullscreen w es h, ?_, ?_, rfl, rfl⟩
  · cases hd : w.docFullscreen <;> simp [step, toggleFullscreen, hd]
  · cases hd : w.docFullscreen <;> simp [step, toggleFullscreen, hd]

/-- Claim C6, witness: a concrete signal-free trace, including a click on
the fullscreen toggle, leaves `isFullscreen` at its initial value, and the
toggle click only logged a request command. -/
theorem isFullscreen_only_from_fullscreen_signal_witness :
    (run initWorld fsFreeTrace).ui.isFullscreen = initWorld.ui.isFullscreen ∧
    (step initWorld Event.fullscreenClick).fsCommands = [FsCommand.request] := by
  have h := isFullscreen_only_from_fullscreen_signal initWorld fsFreeTrace (by decide)
  exact ⟨h.1, h.2.2.1.trans (by decide)⟩

/-- Claim C7, counterexample: the claim says a locator switch empties the
quality set and resets the level index to the auto sentinel before the new
session's manifest arrives.  In the code the `[url]` effect rebuilds the
engine but writes none of the React state: immediately after the switch the
stale quality set `[720p@0, 1080p@1]` and the selected index 1 are still
there. -/
theorem locator_switch_reset_counterexample :
    playingSessionWorld.ui.isPlaying = true ∧
    (urlChangeEffect playingSessionWorld).ui.qualities = [⟨720, 0⟩, ⟨1080, 1⟩] ∧
    ¬ (urlChangeEffect playingSessionWorld).ui.qualities = [] ∧
    (urlChangeEffect playingSessionWorld).ui.currentQuality = 1 ∧
    ¬ (urlChangeEffect playingSessionWorld).ui.currentQuality = 0 ∧
    ¬ (urlChangeEffect playingSessionWorld).ui.currentQuality = -1 := by
  decide

/-- Claim C7, amended: switching the locator tears down the engine and
creates a fresh instance (session counter bumps), but leaves `qualities`
and `currentQuality` untouched; the stale values persist across any
further events until a new MANIFEST_PARSED (or a user quality selection)
overwrites them. -/
theorem locator_switch_keeps_stale_qualities (w : World) (es : List Event)
    (h : ∀ e ∈ es, touchesQualityState e = false) :
    (urlChangeEffect w).session = w.session + 1 ∧
    (run (urlChangeEffect w) es).ui.qualities = w.ui.qualities ∧
    (run (urlChangeEffect w) es).ui.currentQuality = w.ui.currentQuality :=
  ⟨rfl, (run_preserves_quality_state (urlChangeEffect w) es h).1,
    (run_preserves_quality_state (urlChangeEffect w) es h).2⟩

/-- Claim C7, witness for the amended claim: after switching away from a
playing session, a manifest-free trace keeps the stale quality state. -/
theorem locator_switch_keeps_stale_qualities_witness :
    (urlChangeEffect playingSessionWorld).session = playingSessionWorld.session + 1 ∧
    (run (urlChangeEffect playingSessionWorld) postSwitchEvents).ui.qualities
      = playingSessionWorld.ui.qualities ∧
    (run (urlChangeEffect playingSessionWorld) postSwitchEvents).ui.currentQuality
      = playingSessionWorld.ui.currentQuality :=
  locator_switch_keeps_stale_qualities playingSessionWorld postSwitchEvents (by decide)

/-- Claim C8: `formatTime` yields the reference values 00:00, 01:05 and
1:01:01, and on every non-negative whole-second input it equals the spec
format: minutes and seconds zero-padded to two digits, an unpadded hours
field followed by a colon prepended exactly when the input is at least
3600 seconds. -/
theorem formatTime_spec_and_examples :
    (∀ n : Nat, formatTime (n : ℚ) = formatTimeSpec n) ∧
    formatTime 0 = "00:00" ∧ formatTime 65 = "01:05" ∧ formatTime 3661 = "1:01:01" := by
  refine ⟨?_, ?_, ?_, ?_⟩
  · intro n
    unfold formatTime formatTimeSpec
    have e36 : ((3600 : ℚ)) = ((3600 : Nat) : ℚ) := by norm_num
    have e60 : ((60 : ℚ)) = ((60 : Nat) : ℚ) := by norm_num
    rw [e36, e60, ifloor_natCast_div, jsMod_natCast, jsMod_natCast, ifloor_natCast_div]
    rw [Int.floor_natCast]
    rw [toString_intCast, toString_intCast, toString_intCast]
    rcases le_or_lt 3600 n with h36 | h36
    · rw [if_pos (by exact_mod_cast Nat.div_pos h36 (by norm_num) : ((n / 3600 : Nat) : ℤ) > 0),
          if_pos h36]
    · rw [if_neg (by
          have h0 : n / 3600 = 0 := Nat.div_eq_of_lt h36
          simp [h0]), if_neg (by omega)]
  all_goals
    norm_num [formatTime, jsMod, jsTrunc, padStart2]
  all_goals decide

/-- Claim C9: the mute toggle changes only the UI volume state — the
sink's volume field is untouched, and for a nonzero pre-mute volume the
displayed volume becomes 0 — while the volume slider handler writes the
value to both the state and the sink. -/
theorem mute_does_not_write_sink_volume (w : World) (v : ℚ) (h : w.ui.volume ≠ 0) :
    (step w Event.muteClick).sink.volume = w.sink.volume ∧
    (step w Event.muteClick).ui.volume = 0 ∧
    (step w (Event.volumeInput v)).sink.volume = v ∧
    (step w (Event.volumeInput v)).ui.volume = v :=
  ⟨rfl, by simp [step, muteToggleClick, h], rfl, rfl⟩

/-- Claim C9, witness at pre-mute volume 0.7 and slider input 0.3. -/
theorem mute_does_not_write_sink_volume_witness :
    (step sampleVolume07 Event.muteClick).sink.volume = sampleVolume07.sink.volume ∧
    (step sampleVolume07 Event.muteClick).ui.volume = 0 ∧
    (step sampleVolume07 (Event.volumeInput (3 / 10))).sink.volume = 3 / 10 ∧
    (step sampleVolume07 (Event.volumeInput (3 / 10))).ui.volume = 3 / 10 :=
  mute_does_not_write_sink_volume sampleVolume07 (3 / 10)
    (by norm_num [sampleVolume07, run, step, List.foldl, handleVolumeChange, initWorld, initPlayer])

/-- Claim C10: the progress fraction and the buffered-range widths divide
by `duration` with no guard.  Under the precondition duration > 0 they
equal currentTime/duration and (rangeEnd-rangeStart)/duration (times 100);
in the initial state duration is 0 and the division's error branch is
reached. -/
theorem progress_division_unguarded (s : PlayerState) (a b : ℚ) (h : 0 < s.duration) :
    initPlayer.duration = 0 ∧
    getProgressBarStyles initPlayer = none ∧
    bufferedRangeWidth initPlayer a b = none ∧
    getProgressBarStyles s = some (s.currentTime / s.duration * 100) ∧
    bufferedRangeWidth s a b = some ((b - a) / s.duration * 100) := by
  refine ⟨rfl, rfl, rfl, ?_, ?_⟩ <;>
    simp [getProgressBarStyles, bufferedRangeWidth, divOpt, h.ne']

/-- Claim C10, witness at the spec's example state (currentTime 30,
duration 120): progress is 25%, and the range [10, 40] also renders at
width 25%. -/
theorem progress_division_unguarded_witness :
    (0 : ℚ) < progressSample.duration ∧
    getProgressBarStyles progressSample = some 25 ∧
    bufferedRangeWidth progressSample 10 40 = some 25 := by
  have h := progress_division_unguarded progressSample 10 40
    (by norm_num [progressSample, initPlayer])
  exact ⟨by norm_num [progressSample, initPlayer],
    h.2.2.2.1.trans (by norm_num [progressSample, initPlayer]),
    h.2.2.2.2.trans (by norm_num [progressSample, initPlayer])⟩

end SwiftStreamer
